import Mathlib

/-
  Verification development for the PBS Pro source slice: a shallow embedding
  of the attribute value framework (attr_fn_str.c, attr_fn_c.c), the wire
  request/reply decoders (dis_read.c), the authentication provider registry
  (auth.c), the GSS wrap/unwrap cache (pbs_gss.c), shell resolution
  (mom_start.c), the request-ingestion entry point and batch-request
  lifecycle (process_request.c), and the signal/suspend/resume fan-out
  (req_signal.c), together with theorems settling the behavioural claims
  about them.

  Conventions: C strings become `List Char` (`none` models a NULL pointer,
  `some []` a non-NULL empty string); machine integers become `Nat`/`Int`
  with explicit wrapping where overflow matters; heap allocation is modelled
  as always succeeding unless a claim is about the failure path; functions
  with side effects return an explicit record of the effects performed.
  Numeric constants whose defining headers (pbs_error.h, attribute.h,
  libpbs.h, job.h, dis.h) fall outside the given source slice are given
  representative values; the theorems below rely only on their distinctness,
  never on the particular numerals.
-/

namespace PBS

/-- The `enum batch_op` from the project IFL header: the operator argument taken
by every attribute `set` function. -/
inductive batch_op where
  | SET | UNSET | INCR | DECR | EQ | NE | GE | GT | LE | LT | DFLT
deriving DecidableEq, Repr

/-- The `ATR_VFLAG_SET`: the attribute cell holds a value. -/
def ATR_VFLAG_SET : Nat := 1

/-- The `ATR_VFLAG_MODIFY`: the value was modified since last save. -/
def ATR_VFLAG_MODIFY : Nat := 2

/-- The `ATR_VFLAG_MODCACHE`: the encode cache needs refreshing. -/
def ATR_VFLAG_MODCACHE : Nat := 8

/-- The `ATR_SET_MOD_MCACHE = ATR_VFLAG_SET | ATR_VFLAG_MODIFY | ATR_VFLAG_MODCACHE`. -/
def ATR_SET_MOD_MCACHE : Nat := ATR_VFLAG_SET ||| ATR_VFLAG_MODIFY ||| ATR_VFLAG_MODCACHE

/-- The `f &= ~m` on flag words: clear the bits of `m` in `f`. -/
def clearFlag (f m : Nat) : Nat := f - (f &&& m)

/-- A string-typed attribute cell (`attribute` with `at_val.at_str` active):
`at_str = none` models a NULL `at_str` pointer, `some s` a buffer holding the
string `s` (possibly empty). -/
structure StrAttr where
  at_str : Option (List Char)
  at_flags : Nat
deriving DecidableEq, Repr

/-- The `PBSE_SYSTEM` error code. -/
def PBSE_SYSTEM : Nat := 15010

/-- The `PBSE_INTERNAL` error code. -/
def PBSE_INTERNAL : Nat := 15011

/-- The right-to-left removal scan in `set_str`'s `DECR` arm
(attr_fn_str.c lines 228-236): the counter `n` means positions `n-1` down
to `0` remain to be examined; at each position `p` the current buffer is
compared against `b` (`strncmp(p, new, nsize)`) and on a match the `nsize`
bytes at `p` are shifted out (`*p = *(p + nsize)` loop); the scan then
continues at `p - 1` over the already-shifted buffer. -/
def decr_scan (b : List Char) : Nat → List Char → List Char
  | 0, s => s
  | n + 1, s =>
    let s' := if (s.drop n).take b.length = b then s.take n ++ s.drop (n + b.length) else s
    decr_scan b n s'

/-- The common epilogue of `set_str` (attr_fn_str.c lines 241-246): a
non-NULL, non-empty result marks the cell set/modified/cache-dirty, any
other result clears the set flag; the return code is 0. -/
def set_str_post (attr : StrAttr) (s : Option (List Char)) : Nat × StrAttr :=
  if s ≠ none ∧ s ≠ some [] then
    (0, { at_str := s, at_flags := attr.at_flags ||| ATR_SET_MOD_MCACHE })
  else
    (0, { at_str := s, at_flags := clearFlag attr.at_flags ATR_VFLAG_SET })

/-- The `DECR` arm of `set_str` (attr_fn_str.c lines 221-237): a NULL
destination breaks out unchanged, as does an empty source string
(`--nsize == 0`); when the source is longer than the destination the scan
pointer starts before the buffer and the loop body never runs; otherwise
the right-to-left scan runs from position `strlen(A) - nsize` down to 0. -/
def set_str_decr (a_opt : Option (List Char)) (b : List Char) : Option (List Char) :=
  match a_opt with
  | none => none
  | some a =>
    if b.length = 0 then some a
    else if b.length ≤ a.length then some (decr_scan b (a.length - b.length + 1) a)
    else some a

/-- The `set_str` from attr_fn_str.c: set string attribute `attr` from the source
string `new_val` (the source attribute's asserted-non-NULL `at_val.at_str`)
under operator `op`.  Returns the C return code and the updated cell.
`SET` replaces, `INCR` concatenates (demoted to `SET` when `attr` holds a
NULL pointer), `DECR` runs the right-to-left removal scan
(`set_str_decr`); any other operator returns `PBSE_INTERNAL` before the
final flags update (`set_str_post`). -/
def set_str (attr : StrAttr) (new_val : List Char) (op : batch_op) : Nat × StrAttr :=
  let op := if op = batch_op.INCR ∧ attr.at_str = none then batch_op.SET else op
  match op with
  | batch_op.SET => set_str_post attr (some new_val)
  | batch_op.INCR =>
    match attr.at_str with
    | some a => set_str_post attr (some (a ++ new_val))
    | none => set_str_post attr (some new_val)
  | batch_op.DECR => set_str_post attr (set_str_decr attr.at_str new_val)
  | _ => (PBSE_INTERNAL, attr)

/-- The `DECR` behaviour as claim C3 words it: remove only the first
occurrence of `b` found scanning right-to-left from position
`len a - len b`, leaving every other occurrence in place. -/
def decr_claim_remove (a b : List Char) : List Char :=
  match (List.range (a.length - b.length + 1)).reverse.find?
      (fun p => decide ((a.drop p).take b.length = b)) with
  | some p => a.take p ++ a.drop (p + b.length)
  | none => a

/-- An attribute cell holding a raw character or short value
(`at_val.at_char` / `at_val.at_short` active). -/
structure CAttr where
  at_val : Int
  at_flags : Nat
deriving DecidableEq, Repr

/-- Wrap an integer into signed 8-bit char range, as the C narrowing in
`at_char` arithmetic does. -/
def narrow8 (x : Int) : Int := (x + 128).emod 256 - 128

/-- Wrap an integer into signed 16-bit short range. -/
def narrow16 (x : Int) : Int := (x + 32768).emod 65536 - 32768

/-- The `set_attr_c` from attr_fn_c.c (non-NULL `pattr` case): `SET` stores,
`INCR`/`DECR` add/subtract with char narrowing; any other operator returns
before the flags update, leaving the cell untouched; otherwise
`ATR_SET_MOD_MCACHE` is ORed into the flags. -/
def set_attr_c (pattr : CAttr) (value : Int) (op : batch_op) : CAttr :=
  match op with
  | batch_op.SET =>
    { at_val := value, at_flags := pattr.at_flags ||| ATR_SET_MOD_MCACHE }
  | batch_op.INCR =>
    { at_val := narrow8 (pattr.at_val + value), at_flags := pattr.at_flags ||| ATR_SET_MOD_MCACHE }
  | batch_op.DECR =>
    { at_val := narrow8 (pattr.at_val - value), at_flags := pattr.at_flags ||| ATR_SET_MOD_MCACHE }
  | _ => pattr

/-- The `set_attr_short` from attr_fn_c.c (non-NULL `pattr` case), identical to
`set_attr_c` but on the 16-bit `at_short` member. -/
def set_attr_short (pattr : CAttr) (value : Int) (op : batch_op) : CAttr :=
  match op with
  | batch_op.SET =>
    { at_val := value, at_flags := pattr.at_flags ||| ATR_SET_MOD_MCACHE }
  | batch_op.INCR =>
    { at_val := narrow16 (pattr.at_val + value), at_flags := pattr.at_flags ||| ATR_SET_MOD_MCACHE }
  | batch_op.DECR =>
    { at_val := narrow16 (pattr.at_val - value), at_flags := pattr.at_flags ||| ATR_SET_MOD_MCACHE }
  | _ => pattr

/-- The `PBSE_NONE`. -/
def PBSE_NONE : Nat := 0

/-- The `PBSE_UNKREQ`: unknown batch request type. -/
def PBSE_UNKREQ : Nat := 15005

/-- The `PBSE_PROTOCOL`: batch protocol error. -/
def PBSE_PROTOCOL : Nat := 15017

/-- The `PBSE_BADHOST`: access from host not allowed / unknown host. -/
def PBSE_BADHOST : Nat := 15008

/-- The `PBSE_BADSTATE`: request invalid for the object's state. -/
def PBSE_BADSTATE : Nat := 15016

/-- The `PBSE_WRONG_RESUME`: wrong resume signal for the suspend type used. -/
def PBSE_WRONG_RESUME : Nat := 15211

/-- The flatbuffers `ProtType_Batch` protocol-type constant checked by the
request decoder.  The generated header holding the numeral is outside the
source slice; only its identity matters below. -/
def ProtType_Batch : Nat := 0

/-- The `PBS_BATCH_PROT_TYPE`: protocol-type constant checked by the reply
decoder (libpbs.h, outside the source slice; representative value). -/
def PBS_BATCH_PROT_TYPE : Nat := 2

/-- The `PBS_BATCH_PROT_VER`: the highest batch protocol version this build
speaks (libpbs.h, outside the source slice; representative value — the
theorems below need only that it is positive). -/
def PBS_BATCH_PROT_VER : Nat := 2

/-- The `DIS_PROTO` result of the DIS reply decoder on a header mismatch. -/
def DIS_PROTO : Nat := 9

/-- The request types cased on by `wire_decode_batch_request` (server
build), plus `Unknown code` for any request-type numeral that reaches the
switch's `default:` label. -/
inductive BatchReqType where
  | Connect | Disconnect | QueueJob | SubmitResv | JobCred | UserCred
  | jobscript | MvJobFile | RdytoCommit | Commit | Rerun
  | DeleteJob | DeleteResv | ResvOccurEnd | HoldJob | ModifyJob | ModifyJob_Async
  | MessJob | Shutdown | FailOver | SignalJob | StatusJob | PySpawn | Authenticate
  | RelnodesJob | LocateJob | Manager | ReleaseJob | ModifyResv
  | MoveJob | OrderJob | RunJob | AsyrunJob | StageIn | ConfirmResv
  | DefSchReply | SelectJobs | SelStat
  | StatusNode | StatusResv | StatusQue | StatusSvr | StatusSched | StatusRsc | StatusHook
  | TrackJob | Rescq | ReserveResc | ReleaseResc | RegistDep | PreemptJobs
  | Unknown (code : Nat)
deriving Repr

/-- One wire request as the decoder observes it: the header-decode result
(`hdr_rc`, protocol type/version, request type) and what the per-type body
codec and the extension codec would return on this input. -/
structure WireIn where
  hdr_rc : Nat
  proto_type : Nat
  proto_ver : Nat
  rq_type : BatchReqType
  body_rc : Nat
  ext_rc : Nat
deriving Repr

/-- Instrumented result of `wire_decode_batch_request`: the returned code
(`-1` for EOF on Disconnect), and whether a body codec and the extension
codec actually ran. -/
structure DecodeOut where
  rc : Int
  bodyDecoded : Bool
  extDecoded : Bool
deriving DecidableEq, Repr

/-- The common tail of `wire_decode_batch_request` (dis_read.c lines
461-475): on body success decode the extension, normalising its failure to
`PBSE_PROTOCOL`; normalise any body failure other than `PBSE_UNKREQ` to
`PBSE_PROTOCOL`. -/
def wire_decode_tail (rc : Nat) (ext_rc : Nat) (bd : Bool) : DecodeOut :=
  if rc = PBSE_NONE then
    if ext_rc ≠ PBSE_NONE then ⟨PBSE_PROTOCOL, bd, true⟩ else ⟨PBSE_NONE, bd, true⟩
  else if rc ≠ PBSE_UNKREQ then ⟨PBSE_PROTOCOL, bd, false⟩
  else ⟨rc, bd, false⟩

/-- The `wire_decode_batch_request` from dis_read.c (server build): reject the
header as `PBSE_PROTOCOL` unless it decoded, the protocol type equals
`ProtType_Batch` and the version is at most `PBS_BATCH_PROT_VER`; then
switch on the request type — `Connect` has no body codec, `Disconnect`
returns `-1` at once, an unrecognised code takes the `default:` label to
`PBSE_UNKREQ` with no body decode, and every other type runs its body
codec — and finish with `wire_decode_tail`. -/
def wire_decode_batch_request (w : WireIn) : DecodeOut :=
  if w.hdr_rc ≠ PBSE_NONE ∨ w.proto_type ≠ ProtType_Batch ∨ w.proto_ver > PBS_BATCH_PROT_VER then
    ⟨PBSE_PROTOCOL, false, false⟩
  else
    match w.rq_type with
    | BatchReqType.Connect => wire_decode_tail PBSE_NONE w.ext_rc false
    | BatchReqType.Disconnect => ⟨-1, false, false⟩
    | BatchReqType.Unknown _ => wire_decode_tail PBSE_UNKREQ w.ext_rc false
    | _ => wire_decode_tail w.body_rc w.ext_rc true

/-- The header check of `decode_DIS_replySvr` (dis_read.c lines 231-236):
`some DIS_PROTO` when the protocol type or version differs from the local
constant, `none` when the header is accepted and the inner reply decoder
runs. -/
def decode_DIS_replySvr_check (proto_type proto_ver : Nat) : Option Nat :=
  if proto_type ≠ PBS_BATCH_PROT_TYPE then some DIS_PROTO
  else if proto_ver ≠ PBS_BATCH_PROT_VER then some DIS_PROTO
  else none

/-- Inputs of the early phase of `process_request` (process_request.c lines
295-349): whether the connection was found in the table, whether it is of
the right kind (`cn_active = FromClientDIS`), whether `alloc_br` succeeded,
whether `get_connecthost` resolved the peer, and what
`wire_decode_batch_request` returned. -/
structure PRIn where
  connFound : Bool
  connActiveOk : Bool
  allocOk : Bool
  hostOk : Bool
  decode_rc : Int
deriving DecidableEq, Repr

/-- Effects of the early phase of `process_request`: the sequence of
`req_reject` codes issued, whether the connection was closed
(`CLOSESOCKET`/`close_conn`/`close_client`), whether the request record was
freed, and whether control proceeded past the early phase. -/
structure PROut where
  rejects : List Nat
  closed : Bool
  freed : Bool
  proceeded : Bool
deriving DecidableEq, Repr

/-- The early phase of `process_request` (server build): missing connection
state, wrong connection kind and allocation failure all close without any
reply; a peer-hostname resolution failure rejects with `PBSE_BADHOST`
without closing; then the decode outcome: `-1` (EOF) and
`PBSE_SYSTEM`/`PBSE_INTERNAL` close and free silently, any other positive
code rejects with that code and closes, and success proceeds. -/
def process_request_early (i : PRIn) : PROut :=
  if ¬i.connFound then ⟨[], true, false, false⟩
  else if ¬i.connActiveOk then ⟨[], true, false, false⟩
  else if ¬i.allocOk then ⟨[], true, false, false⟩
  else if ¬i.hostOk then ⟨[PBSE_BADHOST], false, false, false⟩
  else if i.decode_rc = -1 then ⟨[], true, true, false⟩
  else if i.decode_rc = (PBSE_SYSTEM : Int) ∨ i.decode_rc = (PBSE_INTERNAL : Int) then
    ⟨[], true, true, false⟩
  else if i.decode_rc > 0 then ⟨[i.decode_rc.toNat], true, false, false⟩
  else ⟨[], false, false, true⟩

/-- The `JOB_STATE_LTR_RUNNING` state letter. -/
def JOB_STATE_LTR_RUNNING : Char := 'R'

/-- The `JOB_SVFLG_Suspend` server-flag bit (job.h, outside the slice;
representative single-bit value). -/
def JOB_SVFLG_Suspend : Nat := 512

/-- The `JOB_SVFLG_AdmSuspd` server-flag bit (job.h, outside the slice;
representative single-bit value). -/
def JOB_SVFLG_AdmSuspd : Nat := 4096

/-- One entry of an array job's subjob tracking table
(`ji_ajtrk->tkm_tbl[i]`): its state letter, whether `trk_psubjob` is a live
job pointer, and that subjob's `ji_qs.ji_svrflags`. -/
structure SubJobTrk where
  trk_state : Char
  trk_has_psubjob : Bool
  trk_svflags : Nat
deriving DecidableEq, Repr

/-- The reply-aggregation state of one parent Signal-Job request: its
`rq_refct`, how many aggregate replies have been sent to the original
requester (`reply_send(preq)` calls), and how many per-subjob duplicates
were fanned out (each duplicate is routed through `req_signaljob2`, which
relays it to the subjob's execution host). -/
structure ReqState where
  rq_refct : Nat
  repliesSent : Nat
  dups : Nat
deriving DecidableEq, Repr

/-- Modelled from the spec: `dup_br_for_subjob` is not in the source slice
(only its callers in req_signal.c are).  Per §2 and §4.7 of the spec it
shallow-duplicates the parent request for one subjob, sharing the payload,
linking the duplicate to the parent and taking one reference on the parent
so that the duplicate's later `free_br` decrements it. -/
def dup_br_for_subjob (s : ReqState) : ReqState :=
  { s with rq_refct := s.rq_refct + 1, dups := s.dups + 1 }

/-- The `--preq->rq_refct == 0 → reply_send(preq)`: the shared decrement-and-
maybe-reply step (req_signal.c lines 212-213 and 274-275, and the parent arm
of `free_br`). -/
def refct_dec_reply (s : ReqState) : ReqState :=
  let r := s.rq_refct - 1
  { s with rq_refct := r, repliesSent := s.repliesSent + (if r = 0 then 1 else 0) }

/-- Does this tracking-table entry trigger a fan-out duplicate in the
whole-array branch of `req_signaljob` (lines 196-209)?  It must be running
with a live subjob pointer, not already suspended on a suspend request, and
suspended on a resume request. -/
def triggersDup (suspend resume : Bool) (sj : SubJobTrk) : Bool :=
  sj.trk_state = JOB_STATE_LTR_RUNNING ∧ sj.trk_has_psubjob
    ∧ ¬(suspend ∧ sj.trk_svflags &&& JOB_SVFLG_Suspend ≠ 0)
    ∧ ¬(resume ∧ sj.trk_svflags &&& JOB_SVFLG_Suspend = 0)

/-- The whole-array fan-out of `req_signaljob` (req_signal.c lines
194-213), entered once the array is known begun: take one reference on the
parent, duplicate the request for every tracking-table entry that triggers,
then drop the loop's reference, replying at once when no duplicate is
pending. -/
def signalArrayFanout (tbl : List SubJobTrk) (suspend resume : Bool) (s : ReqState) : ReqState :=
  let s := { s with rq_refct := s.rq_refct + 1 }
  let s := tbl.foldl (fun st sj => if triggersDup suspend resume sj then dup_br_for_subjob st else st) s
  refct_dec_reply s

/-- The subjob-range fan-out of `req_signaljob` (req_signal.c lines
250-275) after the range has been parsed: `offsets` is the sequence of
`numindex_to_offset` results over the ranges' indices (`none` for an
unresolvable index); each offset whose table entry is running with a live
subjob pointer is duplicated, under the same reference-counting bracket as
the whole-array case. -/
def signalRangeFanout (tbl : List SubJobTrk) (offsets : List (Option Nat)) (s : ReqState) : ReqState :=
  let s := { s with rq_refct := s.rq_refct + 1 }
  let s := offsets.foldl (fun st idx =>
    match idx with
    | none => st
    | some k =>
      match tbl[k]? with
      | none => st
      | some sj =>
        if sj.trk_state = JOB_STATE_LTR_RUNNING ∧ sj.trk_has_psubjob then dup_br_for_subjob st
        else st) s
  refct_dec_reply s

/-- Does a range offset trigger a duplicate in `signalRangeFanout`? -/
def rangeTriggers (tbl : List SubJobTrk) (idx : Option Nat) : Bool :=
  match idx with
  | none => false
  | some k =>
    match tbl[k]? with
    | none => false
    | some sj => sj.trk_state = JOB_STATE_LTR_RUNNING ∧ sj.trk_has_psubjob

/-- The parent arm of `free_br` (process_request.c lines 1193-1203) run when
one fan-out duplicate is freed after its relay completed (success or
failure): when the parent's reference count is positive, decrement it and
send the parent's aggregate reply exactly when it reaches zero. -/
def free_br_child (s : ReqState) : ReqState :=
  if s.rq_refct > 0 then refct_dec_reply s else s

/-- Free `n` fan-out duplicates one after the other. -/
def freeChildren : Nat → ReqState → ReqState
  | 0, s => s
  | n + 1, s => freeChildren n (free_br_child s)

/-- Pseudo-signal name `SIG_SUSPEND`. -/
def SIG_SUSPEND : String := "suspend"

/-- Pseudo-signal name `SIG_RESUME`. -/
def SIG_RESUME : String := "resume"

/-- Pseudo-signal name `SIG_ADMIN_SUSPEND`. -/
def SIG_ADMIN_SUSPEND : String := "admin-suspend"

/-- Pseudo-signal name `SIG_ADMIN_RESUME`. -/
def SIG_ADMIN_RESUME : String := "admin-resume"

/-- The `JOB_SUBSTATE_SCHSUSP` (job suspended by its scheduler; job.h, outside
the slice, representative value). -/
def JOB_SUBSTATE_SCHSUSP : Nat := 45

/-- The fields of a job that `req_signaljob2` reads: running state,
provisioning substate, server flags, whether `JOB_ATR_exec_vnode` holds a
string, and whether `JOB_ATR_exec_vnode_deallocated` is set. -/
structure SigJob where
  running : Bool
  substate_provision : Bool
  svrflags : Nat
  has_exec_vnode : Bool
  has_deallocated : Bool
deriving DecidableEq, Repr

/-- The fields of a Signal-Job request `req_signaljob2` reads: the signal
name and the `rq_fromsvr` flag. -/
structure SigReq where
  signame : String
  fromsvr : Bool
deriving DecidableEq, Repr

/-- Results of the helper calls `req_signaljob2` may make:
`assign_hosts`'s return code, `set_nodes`'s return code, whether
`find_assoc_sched_jid` finds the job's scheduler, and `relay_to_mom`'s
return code. -/
structure SigEnv where
  assign_rc : Nat
  set_nodes_rc : Nat
  sched_found : Bool
  relay_rc : Nat
deriving DecidableEq, Repr

/-- The observable effects of one `req_signaljob2` call: every `req_reject`
code issued in order, whether `relay_to_mom` ran, whether `reply_send`
acknowledged the request, the substate passed to `svr_setjobstate` (if
called), whether `set_scheduler_flag(SCH_SCHEDULE_NEW)` ran, whether
`assign_hosts` ran, whether `set_resc_assigned(.., INCR)` ran, and whether
`rel_resc` ran. -/
structure Sig2Out where
  rejects : List Nat
  relayed : Bool
  acked : Bool
  set_substate : Option Nat
  sched_flagged : Bool
  assign_called : Bool
  resc_incr : Bool
  rel_resc_called : Bool
deriving DecidableEq, Repr

/-- The relay tail of `req_signaljob2` (req_signal.c lines 380-389): relay
the request to the job's execution host; on relay failure release the
re-acquired resources when resuming and reject. -/
def signal_relay (resume : Bool) (env : SigEnv) (out : Sig2Out) : Sig2Out :=
  let out := { out with relayed := true }
  if env.relay_rc ≠ 0 then
    { out with rel_resc_called := resume, rejects := out.rejects ++ [env.relay_rc] }
  else out

/-- The `req_signaljob2` from req_signal.c: reject unless the job is running and
not provisioning; reject mismatched resume kinds as `PBSE_WRONG_RESUME`;
for a resume of a suspended job, either (from another server or
admin-resume) reassign the recorded execution nodes — rejecting on
`assign_hosts` failure — re-increment the resource accounting, re-register
a deallocated vnode set when present (rejecting on its failure but
continuing), and relay to the execution host, or (plain resume from a
normal client) move the job to the scheduler-suspended substate, flag the
job's scheduler when it is found, and acknowledge at once with no relay.
Every other signal is relayed to the execution host. -/
def req_signaljob2 (pjob : SigJob) (preq : SigReq) (env : SigEnv) : Sig2Out :=
  let out : Sig2Out := ⟨[], false, false, none, false, false, false, false⟩
  if ¬pjob.running ∨ (pjob.running ∧ pjob.substate_provision) then
    { out with rejects := [PBSE_BADSTATE] }
  else if (preq.signame = SIG_ADMIN_RESUME ∧ pjob.svrflags &&& JOB_SVFLG_AdmSuspd = 0)
      ∨ (preq.signame = SIG_RESUME ∧ pjob.svrflags &&& JOB_SVFLG_AdmSuspd ≠ 0) then
    { out with rejects := [PBSE_WRONG_RESUME] }
  else
    let resume := preq.signame = SIG_RESUME ∨ preq.signame = SIG_ADMIN_RESUME
    if resume then
      if pjob.svrflags &&& JOB_SVFLG_Suspend ≠ 0 then
        if preq.fromsvr ∨ preq.signame = SIG_ADMIN_RESUME then
          let step1 : Option Sig2Out :=
            if pjob.has_exec_vnode then
              if env.assign_rc = 0 then
                some { out with assign_called := true, resc_incr := true }
              else none
            else some out
          match step1 with
          | none =>
            { out with assign_called := true, rejects := [env.assign_rc] }
          | some out =>
            let out :=
              if pjob.has_deallocated ∧ env.set_nodes_rc ≠ 0 then
                { out with rejects := out.rejects ++ [env.set_nodes_rc] }
              else out
            signal_relay resume env out
        else
          { out with set_substate := some JOB_SUBSTATE_SCHSUSP,
                     sched_flagged := env.sched_found, acked := true }
      else
        { out with rejects := [PBSE_BADSTATE] }
    else
      signal_relay resume env out

/-- The `AUTH_RESVPORT_NAME`: the reserved-port method sentinel. -/
def AUTH_RESVPORT_NAME : String := "resvport"

/-- One loaded authentication provider definition (`auth_def_t`): its
method name, a pointer identity distinguishing separately allocated
definitions, and whether the optional encrypt/decrypt entry points
resolved. -/
structure AuthDef where
  name : String
  id : Nat
  has_encrypt : Bool
  has_decrypt : Bool
deriving DecidableEq, Repr

/-- The process-wide registry state of auth.c: the `loaded_auths` singly
linked list (head first), a fresh-pointer counter, and how many dynamic
library loads (`_load_lib`) have been attempted. -/
structure AuthRegistry where
  loaded_auths : List AuthDef
  nextId : Nat
  loadCalls : Nat
deriving DecidableEq, Repr

/-- What the filesystem/loader would answer for each method name: whether
`lib/libauth_<name>` loads with all required symbols, and whether the
optional encrypt/decrypt symbols are present. -/
structure LoadEnv where
  loadable : String → Bool
  has_encrypt : String → Bool
  has_decrypt : String → Bool

/-- The `_load_auth` from auth.c: the reserved-port sentinel never attempts a
load; otherwise one dynamic load is attempted, yielding a freshly allocated
definition on success with the optional entry points as the library
provides them, and nothing on failure. -/
def load_auth (env : LoadEnv) (name : String) (st : AuthRegistry) :
    Option AuthDef × AuthRegistry :=
  if name = AUTH_RESVPORT_NAME then (none, st)
  else
    let st := { st with loadCalls := st.loadCalls + 1 }
    if env.loadable name then
      (some ⟨name, st.nextId, env.has_encrypt name, env.has_decrypt name⟩,
       { st with nextId := st.nextId + 1 })
    else (none, st)

/-- The `get_auth` from auth.c: scan `loaded_auths` for a definition with the
given name and return it; on a miss, `_load_auth` it and push the new
definition on the head of the list. -/
def get_auth (env : LoadEnv) (method : String) (st : AuthRegistry) :
    Option AuthDef × AuthRegistry :=
  match st.loaded_auths.find? (fun a => a.name = method) with
  | some a => (some a, st)
  | none =>
    match load_auth env method st with
    | (none, st') => (none, st')
    | (some a, st') => (some a, { st' with loaded_auths := a :: st'.loaded_auths })

/-- The `is_valid_encrypt_method` from auth.c: load the method afresh (never
consulting or touching the registry), report whether both optional entry
points are present, and unload the transient definition again. -/
def is_valid_encrypt_method (env : LoadEnv) (method : String) (st : AuthRegistry) :
    Bool × AuthRegistry :=
  let (a, st') := load_auth env method st
  match a with
  | some d => (d.has_encrypt ∧ d.has_decrypt, st')
  | none => (false, st')

/-- The `PBS_GSS_OK`. -/
def PBS_GSS_OK : Nat := 0

/-- The `PBS_GSS_ERR_INTERNAL` (pbs_gss.h, outside the slice; representative). -/
def PBS_GSS_ERR_INTERNAL : Nat := 7

/-- The `PBS_GSS_ERR_WRAP` (pbs_gss.h, outside the slice; representative). -/
def PBS_GSS_ERR_WRAP : Nat := 8

/-- The `PBS_GSS_ERR_UNWRAP` (pbs_gss.h, outside the slice; representative). -/
def PBS_GSS_ERR_UNWRAP : Nat := 9

/-- The per-context GSS provider state that wrap/unwrap read
(`pbs_gss_extra_t`): the ready and confidentiality flags and the
single-slot cleartext cache (`cleartext`/`cleartext_len`). -/
structure GssExtra where
  ready : Bool
  confidential : Bool
  cleartext : Option (List Nat)
deriving DecidableEq, Repr

/-- The `pbs_gss_wrap` from pbs_gss.c (non-NULL `extra`): cache a copy of the
plaintext in the single-slot buffer, freeing any prior contents, BEFORE the
readiness check; then require `ready`, and run `gss_wrap` — modelled by the
`wrapOk` oracle since the ciphertext itself is irrelevant here.  Returns
the result code and the updated context state. -/
def pbs_gss_wrap (s : GssExtra) (data_in : List Nat) (wrapOk : Bool) : Nat × GssExtra :=
  let s := { s with cleartext := some data_in }
  (if ¬s.ready then PBS_GSS_ERR_INTERNAL else if ¬wrapOk then PBS_GSS_ERR_WRAP else PBS_GSS_OK,
   s)

/-- Result of one `pbs_gss_unwrap` call: the code, the plaintext written to
`data_out`, the updated context state, and whether `gss_unwrap` was
invoked. -/
structure UnwrapOut where
  rc : Nat
  data_out : Option (List Nat)
  st : GssExtra
  gss_unwrap_called : Bool
deriving DecidableEq, Repr

/-- The `pbs_gss_unwrap` from pbs_gss.c (non-NULL `extra`): require `ready` and
`confidential`; with a zero-length/absent input (`len_in == 0 && data_in ==
NULL`) perform no GSS unwrap at all — return the cached plaintext, failing
with an internal error when the cache is empty, and clear the cache;
otherwise run `gss_unwrap` (the `unwrapRes` oracle: `none` for a GSS
failure, `some p` for recovered plaintext `p`), failing also when the
recovered length is zero. -/
def pbs_gss_unwrap (s : GssExtra) (data_in : Option (List Nat))
    (unwrapRes : Option (List Nat)) : UnwrapOut :=
  if ¬s.ready then ⟨PBS_GSS_ERR_INTERNAL, none, s, false⟩
  else if ¬s.confidential then ⟨PBS_GSS_ERR_INTERNAL, none, s, false⟩
  else
    match data_in with
    | none =>
      match s.cleartext with
      | none => ⟨PBS_GSS_ERR_INTERNAL, none, s, false⟩
      | some p => ⟨PBS_GSS_OK, some p, { s with cleartext := none }, false⟩
    | some _ =>
      match unwrapRes with
      | none => ⟨PBS_GSS_ERR_UNWRAP, none, s, true⟩
      | some p =>
        if p.length = 0 then ⟨PBS_GSS_ERR_UNWRAP, none, s, true⟩
        else ⟨PBS_GSS_OK, some p, s, true⟩

/-- The `strchr(e, '@')`: split a shell-list entry at its first `'@'`, giving
the name part before it and the host part after it, or nothing when the
entry has no `'@'`. -/
def strchrAt : List Char → Option (List Char × List Char)
  | [] => none
  | c :: rest =>
    if c = '@' then some ([], rest)
    else
      match strchrAt rest with
      | some (n, h) => some (c :: n, h)
      | none => none

/-- The scan loop of `set_shell` (mom_start.c lines 622-634): a qualified
entry whose host part passes `strncmp(mom_host, cp+1, strlen(cp+1)) == 0`
(the host part is a prefix of this execution host's name) is stripped at
the `'@'` and returned at once; an unqualified entry overwrites the running
candidate and the scan continues. -/
def set_shell_scan (mom_host : List Char) : List (List Char) → List Char → List Char
  | [], shell => shell
  | e :: rest, shell =>
    match strchrAt e with
    | some (name, host) =>
      if host.isPrefixOf mom_host then name
      else set_shell_scan mom_host rest shell
    | none => set_shell_scan mom_host rest e

/-- The `set_shell` from mom_start.c: start from the submitting user's login
shell (`pwdp->pw_shell`); when the job's `JOB_ATR_shell` list attribute is
set, run the scan over its entries. -/
def set_shell (mom_host login_shell : List Char) (shell_attr : Option (List (List Char))) :
    List Char :=
  match shell_attr with
  | none => login_shell
  | some entries => set_shell_scan mom_host entries login_shell

/-- The name part of an entry (the entry itself when unqualified). -/
def entryName (e : List Char) : List Char :=
  match strchrAt e with
  | some (n, _) => n
  | none => e

/-- Does this entry's host part match the execution host the way the code
compares (`strncmp` bounded by the host part's length)? -/
def entryHostMatches (mom_host e : List Char) : Bool :=
  match strchrAt e with
  | some (_, h) => h.isPrefixOf mom_host
  | none => false

/-- Shell resolution as claim C8 words it: the first host-matching entry,
stripped; else the FIRST unqualified entry; else the login shell. -/
def set_shell_claim (mom_host login_shell : List Char)
    (shell_attr : Option (List (List Char))) : List Char :=
  match shell_attr with
  | none => login_shell
  | some entries =>
    match entries.find? (fun e => entryHostMatches mom_host e) with
    | some e => entryName e
    | none =>
      match entries.find? (fun e => decide (strchrAt e = none)) with
      | some e => e
      | none => login_shell

/-- Shell resolution as the code actually behaves: the first host-matching
entry, stripped; with no host match anywhere, the LAST unqualified entry of
the list; else the login shell. -/
def set_shell_amended (mom_host login_shell : List Char)
    (shell_attr : Option (List (List Char))) : List Char :=
  match shell_attr with
  | none => login_shell
  | some entries =>
    match entries.find? (fun e => entryHostMatches mom_host e) with
    | some e => entryName e
    | none =>
      match (entries.filter (fun e => decide (strchrAt e = none))).getLast? with
      | some e => e
      | none => login_shell

/-- Request types that route to a per-type body codec in
`wire_decode_batch_request`'s switch: everything except `Connect` (empty
body), `Disconnect` (immediate EOF return) and the `default:` label. -/
def hasBodyCodec : BatchReqType → Bool
  | BatchReqType.Connect => false
  | BatchReqType.Disconnect => false
  | BatchReqType.Unknown _ => false
  | _ => true

/-- C10: for every non-null attribute cell and every operator other than
`SET`, `INCR` and `DECR`, the raw character and short setters `set_attr_c`
and `set_attr_short` return without any effect: the stored value and the
flags bitfield (in particular the modified/cache marker) are unchanged, and
no error is reported (the functions return `void`). -/
theorem C10_set_attr_raw_noop (pattr : CAttr) (value : Int) (op : batch_op)
    (h1 : op ≠ batch_op.SET) (h2 : op ≠ batch_op.INCR) (h3 : op ≠ batch_op.DECR) :
    set_attr_c pattr value op = pattr ∧ set_attr_short pattr value op = pattr := by
  cases op <;> simp_all [set_attr_c, set_attr_short]

/-- Witness for C10 at the concrete cell `⟨5, 3⟩`, value `7`, operator
`UNSET`. -/
theorem C10_witness :
    set_attr_c ⟨5, 3⟩ 7 batch_op.UNSET = ⟨5, 3⟩ ∧
    set_attr_short ⟨5, 3⟩ 7 batch_op.UNSET = ⟨5, 3⟩ :=
  C10_set_attr_raw_noop ⟨5, 3⟩ 7 batch_op.UNSET (by decide) (by decide) (by decide)

/-- C9: when the per-connection entry point fails to resolve the peer
hostname for a freshly allocated request, it rejects the request with
`PBSE_BADHOST` (producing a rejection reply) and does not close the
connection, unlike every other non-proceeding early path, which closes
it. -/
theorem C9_badhost_reject_no_close (i : PRIn)
    (h1 : i.connFound = true) (h2 : i.connActiveOk = true)
    (h3 : i.allocOk = true) (h4 : i.hostOk = false) :
    process_request_early i = ⟨[PBSE_BADHOST], false, false, false⟩ ∧
    ∀ j : PRIn, j.hostOk = true → (process_request_early j).proceeded = false →
      (process_request_early j).closed = true := by
  refine ⟨by simp [process_request_early, h1, h2, h3, h4], ?_⟩
  intro j hj hp
  obtain ⟨cf, ca, ao, ho, rc⟩ := j
  simp only at hj
  subst hj
  cases cf <;> cases ca <;> cases ao <;> simp_all [process_request_early] <;>
    split_ifs at hp ⊢ <;> simp_all

/-- Witness for C9 at a concrete early-phase input whose hostname
resolution fails. -/
theorem C9_witness :
    process_request_early ⟨true, true, true, false, 0⟩
      = ⟨[PBSE_BADHOST], false, false, false⟩ :=
  (C9_badhost_reject_no_close ⟨true, true, true, false, 0⟩ rfl rfl rfl rfl).1

/-- C4: for a ready, confidential GSS context, wrapping plaintext `P` and
then unwrapping a zero-length/absent input performs no GSS unwrap and
returns exactly `P` from the single-slot cache, clearing it, so that a
second zero-length unwrap without an intervening wrap fails with an
internal error; and wrap stores its copy of `P` into the cache (replacing
any prior contents) before checking the ready flag, hence on every wrap
outcome. -/
theorem C4_gss_wrap_unwrap_cache (s : GssExtra) (P : List Nat) (wrapOk : Bool)
    (ur1 ur2 : Option (List Nat))
    (hr : s.ready = true) (hc : s.confidential = true) :
    pbs_gss_unwrap (pbs_gss_wrap s P wrapOk).2 none ur1
      = ⟨PBS_GSS_OK, some P, { s with cleartext := none }, false⟩ ∧
    pbs_gss_unwrap (pbs_gss_unwrap (pbs_gss_wrap s P wrapOk).2 none ur1).st none ur2
      = ⟨PBS_GSS_ERR_INTERNAL, none, { s with cleartext := none }, false⟩ ∧
    (∀ (t : GssExtra) (Q : List Nat) (ok : Bool), ((pbs_gss_wrap t Q ok).2).cleartext = some Q) := by
  refine ⟨?_, ?_, ?_⟩
  · simp [pbs_gss_wrap, pbs_gss_unwrap, hr, hc]
  · simp [pbs_gss_wrap, pbs_gss_unwrap, hr, hc]
  · intro t Q ok
    simp [pbs_gss_wrap]

/-- Witness for C4 at a concrete ready, confidential context and plaintext
`[1, 2, 3]`. -/
theorem C4_witness :
    pbs_gss_unwrap (pbs_gss_wrap ⟨true, true, none⟩ [1, 2, 3] true).2 none none
      = ⟨PBS_GSS_OK, some [1, 2, 3], ⟨true, true, none⟩, false⟩ :=
  (C4_gss_wrap_unwrap_cache ⟨true, true, none⟩ [1, 2, 3] true none none rfl rfl).1

/-- C7: for any method name other than the reserved-port sentinel, a second
`get_auth` call right after a successful one returns the identical cached
definition and leaves the registry state untouched (so no second dynamic
load is attempted); moreover `get_auth` only ever prepends to the registry,
and `is_valid_encrypt_method` never touches it — cached definitions are
removed only by `unload_auths` (process teardown or bulk-load rollback). -/
theorem C7_get_auth_cached (env : LoadEnv) (m : String) (st st1 : AuthRegistry) (d : AuthDef)
    (hm : m ≠ AUTH_RESVPORT_NAME) (h : get_auth env m st = (some d, st1)) :
    get_auth env m st1 = (some d, st1) ∧
    (∃ pre, st1.loaded_auths = pre ++ st.loaded_auths) ∧
    (∀ (m2 : String) (st2 : AuthRegistry),
      ∃ pre, (get_auth env m2 st2).2.loaded_auths = pre ++ st2.loaded_auths) ∧
    (∀ (m2 : String) (st2 : AuthRegistry),
      (is_valid_encrypt_method env m2 st2).2.loaded_auths = st2.loaded_auths) := by
  have key : ∀ (m2 : String) (st2 : AuthRegistry),
      ∃ pre, (get_auth env m2 st2).2.loaded_auths = pre ++ st2.loaded_auths := by
    intro m2 st2
    unfold get_auth load_auth
    rcases hf : st2.loaded_auths.find? (fun a => a.name = m2) with _ | a
    · by_cases hr : m2 = AUTH_RESVPORT_NAME
      · subst hr
        exact ⟨[], by simp [hf]⟩
      · by_cases hl : env.loadable m2
        · exact ⟨[⟨m2, st2.nextId, env.has_encrypt m2, env.has_decrypt m2⟩],
            by simp [hf, hr, hl]⟩
        · exact ⟨[], by simp [hf, hr, hl]⟩
    · exact ⟨[], by simp [hf]⟩
  refine ⟨?_, ?_, key, ?_⟩
  · unfold get_auth at h ⊢
    rcases hf : st.loaded_auths.find? (fun a => a.name = m) with _ | a
    · rw [hf] at h
      unfold load_auth at h
      rw [if_neg hm] at h
      by_cases hl : env.loadable m
      · rw [if_pos hl] at h
        obtain ⟨hd, hst⟩ := Prod.mk.injEq .. ▸ h
        obtain rfl : d = ⟨m, st.nextId, env.has_encrypt m, env.has_decrypt m⟩ :=
          (Option.some.injEq .. ▸ hd).symm ▸ rfl
        subst hst
        simp
      · rw [if_neg hl] at h
        exact absurd (congrArg Prod.fst h) (by simp)
    · rw [hf] at h
      obtain ⟨hd, hst⟩ := Prod.mk.injEq .. ▸ h
      have hd' : a = d := by simpa using hd
      subst hd'
      subst hst
      rw [hf]
  · unfold get_auth at h
    rcases hf : st.loaded_auths.find? (fun a => a.name = m) with _ | a
    · rw [hf] at h
      unfold load_auth at h
      rw [if_neg hm] at h
      by_cases hl : env.loadable m
      · rw [if_pos hl] at h
        obtain ⟨hd, hst⟩ := Prod.mk.injEq .. ▸ h
        exact ⟨[d], by rw [← hst]; simp [← (Option.some.injEq .. ▸ hd)]⟩
      · rw [if_neg hl] at h
        exact absurd (congrArg Prod.fst h) (by simp)
    · rw [hf] at h
      obtain ⟨hd, hst⟩ := Prod.mk.injEq .. ▸ h
      exact ⟨[], by rw [← hst]; simp⟩
  · intro m2 st2
    unfold is_valid_encrypt_method load_auth
    by_cases hr : m2 = AUTH_RESVPORT_NAME
    · simp [hr]
    · by_cases hl : env.loadable m2
      · simp [hr, hl]
      · simp [hr, hl]

/-- Witness for C7: with a loader that can load `"gss"`, looking `"gss"` up
again right after the load that cached it returns the identical definition
and leaves the registry untouched. -/
theorem C7_witness :
    get_auth ⟨fun n => n == "gss", fun _ => true, fun _ => true⟩ "gss"
        ⟨[⟨"gss", 0, true, true⟩], 1, 1⟩
      = (some ⟨"gss", 0, true, true⟩, ⟨[⟨"gss", 0, true, true⟩], 1, 1⟩) :=
  (C7_get_auth_cached ⟨fun n => n == "gss", fun _ => true, fun _ => true⟩ "gss"
    ⟨[], 0, 0⟩ ⟨[⟨"gss", 0, true, true⟩], 1, 1⟩ ⟨"gss", 0, true, true⟩
    (by decide) (by rfl)).1

/-- The decode tail reports body decoding exactly as instructed. -/
theorem wire_decode_tail_bd (rc erc : Nat) (bd : Bool) :
    (wire_decode_tail rc erc bd).bodyDecoded = bd := by
  unfold wire_decode_tail
  split_ifs <;> rfl

/-- On body success the decode tail always runs the extension codec. -/
theorem wire_decode_tail_ext (erc : Nat) (bd : Bool) :
    (wire_decode_tail PBSE_NONE erc bd).extDecoded = true := by
  unfold wire_decode_tail
  split_ifs <;> simp_all [PBSE_NONE]

/-- C5: under a well-formed, version-accepted header, the top-level batch
request decoder returns the distinct `PBSE_UNKREQ` code for an
unrecognised request-type code without running a body or extension codec;
every body-codec failure other than that distinct code, and every
extension-codec failure, is normalised to the single `PBSE_PROTOCOL`
code; and on body success the optional request extension is additionally
decoded. -/
theorem C5_decode_dispatch (w : WireIn)
    (hh : w.hdr_rc = PBSE_NONE) (ht : w.proto_type = ProtType_Batch)
    (hv : w.proto_ver ≤ PBS_BATCH_PROT_VER) :
    (∀ c, w.rq_type = BatchReqType.Unknown c →
      wire_decode_batch_request w = ⟨(PBSE_UNKREQ : Nat), false, false⟩) ∧
    (hasBodyCodec w.rq_type = true → w.body_rc ≠ PBSE_NONE → w.body_rc ≠ PBSE_UNKREQ →
      wire_decode_batch_request w = ⟨(PBSE_PROTOCOL : Nat), true, false⟩) ∧
    (hasBodyCodec w.rq_type = true → w.body_rc = PBSE_NONE → w.ext_rc ≠ PBSE_NONE →
      wire_decode_batch_request w = ⟨(PBSE_PROTOCOL : Nat), true, true⟩) ∧
    (hasBodyCodec w.rq_type = true → w.body_rc = PBSE_NONE →
      (wire_decode_batch_request w).extDecoded = true) := by
  obtain ⟨hr, tp, pv, ty, brc, erc⟩ := w
  simp only at hh ht hv
  subst hh ht
  refine ⟨?_, ?_, ?_, ?_⟩
  · rintro c rfl
    simp [wire_decode_batch_request, wire_decode_tail, PBSE_UNKREQ, PBSE_NONE,
      Nat.not_lt.mpr hv]
  · intro hb h1 h2
    cases ty <;> simp_all [wire_decode_batch_request, wire_decode_tail, hasBodyCodec,
      PBSE_NONE, Nat.not_lt.mpr hv]
  · intro hb h1 h2
    cases ty <;> simp_all [wire_decode_batch_request, wire_decode_tail, hasBodyCodec,
      PBSE_NONE, Nat.not_lt.mpr hv]
  · intro hb h1
    cases ty <;> simp_all [wire_decode_batch_request, hasBodyCodec,
      Nat.not_lt.mpr hv, wire_decode_tail_ext]

/-- Witness for C5: an unknown request-type code `999` under a well-formed
header yields `PBSE_UNKREQ` with neither body nor extension decoded. -/
theorem C5_witness :
    wire_decode_batch_request ⟨PBSE_NONE, ProtType_Batch, PBS_BATCH_PROT_VER,
        BatchReqType.Unknown 999, PBSE_NONE, PBSE_NONE⟩
      = ⟨(PBSE_UNKREQ : Nat), false, false⟩ :=
  (C5_decode_dispatch _ rfl rfl (Nat.le_refl _)).1 999 rfl

/-- C6 counterexample: the claim says the embedded protocol version must
match the receiver's maximum exactly for both requests and replies, any
mismatch being a protocol violation; but the request decoder accepts the
mismatched lower version `1 ≠ PBS_BATCH_PROT_VER = 2` and decodes the
request successfully. -/
theorem C6_counterexample :
    (1 : Nat) ≠ PBS_BATCH_PROT_VER ∧
    wire_decode_batch_request ⟨PBSE_NONE, ProtType_Batch, 1, BatchReqType.StatusJob,
        PBSE_NONE, PBSE_NONE⟩
      = ⟨(PBSE_NONE : Nat), true, true⟩ := by
  constructor
  · decide
  · simp [wire_decode_batch_request, wire_decode_tail, PBSE_NONE, ProtType_Batch,
      PBS_BATCH_PROT_VER]

/-- C6 (amended): the request decoder treats a header as a protocol
violation (`PBSE_PROTOCOL`) exactly when the protocol type differs from its
constant or the version EXCEEDS its maximum — versions below the maximum
are accepted and the body is decoded; the reply decoder requires both the
protocol type and the version to match its constants exactly, failing with
`DIS_PROTO` otherwise. -/
theorem C6_protocol_header_check :
    (∀ w : WireIn, w.proto_type ≠ ProtType_Batch →
      wire_decode_batch_request w = ⟨(PBSE_PROTOCOL : Nat), false, false⟩) ∧
    (∀ w : WireIn, w.proto_ver > PBS_BATCH_PROT_VER →
      wire_decode_batch_request w = ⟨(PBSE_PROTOCOL : Nat), false, false⟩) ∧
    (∀ w : WireIn, w.hdr_rc = PBSE_NONE → w.proto_type = ProtType_Batch →
      w.proto_ver ≤ PBS_BATCH_PROT_VER → hasBodyCodec w.rq_type = true →
      (wire_decode_batch_request w).bodyDecoded = true) ∧
    (∀ t v : Nat, decode_DIS_replySvr_check t v
      = if t = PBS_BATCH_PROT_TYPE ∧ v = PBS_BATCH_PROT_VER then none else some DIS_PROTO) := by
  refine ⟨?_, ?_, ?_, ?_⟩
  · intro w hw
    simp [wire_decode_batch_request, hw]
  · intro w hw
    simp [wire_decode_batch_request, hw]
  · intro w hh ht hv hb
    obtain ⟨hr, tp, pv, ty, brc, erc⟩ := w
    simp only at hh ht hv hb
    subst hh ht
    cases ty <;> simp_all [wire_decode_batch_request, hasBodyCodec,
      Nat.not_lt.mpr hv, wire_decode_tail_bd]
  · intro t v
    unfold decode_DIS_replySvr_check
    split_ifs <;> simp_all

/-- Witness for C6 (amended) at concrete headers: a wrong protocol type is
rejected, an over-max version is rejected, an accepted header decodes the
body, and the reply header check fails on a version mismatch. -/
theorem C6_witness :
    wire_decode_batch_request ⟨PBSE_NONE, ProtType_Batch + 1, PBS_BATCH_PROT_VER,
        BatchReqType.StatusJob, PBSE_NONE, PBSE_NONE⟩
      = ⟨(PBSE_PROTOCOL : Nat), false, false⟩ ∧
    wire_decode_batch_request ⟨PBSE_NONE, ProtType_Batch, PBS_BATCH_PROT_VER + 1,
        BatchReqType.StatusJob, PBSE_NONE, PBSE_NONE⟩
      = ⟨(PBSE_PROTOCOL : Nat), false, false⟩ ∧
    (wire_decode_batch_request ⟨PBSE_NONE, ProtType_Batch, PBS_BATCH_PROT_VER,
        BatchReqType.StatusJob, PBSE_NONE, PBSE_NONE⟩).bodyDecoded = true ∧
    decode_DIS_replySvr_check PBS_BATCH_PROT_TYPE (PBS_BATCH_PROT_VER + 1) = some DIS_PROTO :=
  ⟨C6_protocol_header_check.1 _ (by decide),
   C6_protocol_header_check.2.1 _ (by decide),
   C6_protocol_header_check.2.2.1 _ rfl rfl (Nat.le_refl _) rfl,
   by rw [C6_protocol_header_check.2.2.2]; simp⟩

/-- Characterisation of the `set_shell` scan loop: it returns the first
host-matching entry stripped at the `'@'`; with no host match, the last
unqualified entry; with neither, the running candidate it started from. -/
theorem set_shell_scan_eq (mom : List Char) :
    ∀ (entries : List (List Char)) (acc : List Char),
      set_shell_scan mom entries acc =
        match entries.find? (fun e => entryHostMatches mom e) with
        | some e => entryName e
        | none =>
          match (entries.filter (fun e => decide (strchrAt e = none))).getLast? with
          | some e => e
          | none => acc := by
  intro entries
  induction entries with
  | nil => intro acc; simp [set_shell_scan]
  | cons e rest ih =>
    intro acc
    cases hsp : strchrAt e with
    | none =>
      have hm : entryHostMatches mom e = false := by simp [entryHostMatches, hsp]
      simp only [set_shell_scan, hsp]
      rw [ih e]
      rw [List.find?_cons, hm]
      simp only [List.filter_cons, hsp]
      cases hf : rest.find? (fun x => entryHostMatches mom x) with
      | some x => simp
      | none =>
        simp only
        cases hfl : rest.filter (fun x => decide (strchrAt x = none)) with
        | nil => simp
        | cons y l =>
          cases hgl : (y :: l).getLast? with
          | none => simp at hgl
          | some z => simp [hgl]
    | some nh =>
      obtain ⟨n, h⟩ := nh
      by_cases hpref : h.isPrefixOf mom
      · have hm : entryHostMatches mom e = true := by
          simp [entryHostMatches, hsp, hpref]
        simp only [set_shell_scan, hsp, hpref, if_pos]
        rw [List.find?_cons, hm]
        simp [entryName, hsp]
      · have hm : entryHostMatches mom e = false := by
          simp [entryHostMatches, hsp, hpref]
        simp only [set_shell_scan, hsp, hpref, if_neg, Bool.false_eq_true, not_false_iff]
        rw [ih acc]
        rw [List.find?_cons, hm]
        simp only [List.filter_cons, hsp]
        simp

/-- C8 counterexample: the claim says that with no host-matching entry the
FIRST unqualified entry wins; but with entries `["a", "b"]` (both
unqualified, no `'@'`) on host `"h"`, `set_shell` returns `"b"` — each
unqualified entry overwrites the previous candidate and the scan keeps
going — while the claim's reading picks `"a"`. -/
theorem C8_counterexample :
    set_shell ['h'] ['l'] (some [['a'], ['b']]) = ['b'] ∧
    set_shell_claim ['h'] ['l'] (some [['a'], ['b']]) = ['a'] := by
  decide

/-- C8 (amended): shell resolution returns the first entry whose host part
(after the first `'@'`) matches this execution host (a bounded-length
comparison making the host part a prefix of the execution host's name),
stripped of the `'@'` and host; with no host match, the LAST unqualified
entry of the list; with the attribute absent or empty, the submitting
user's login shell. -/
theorem C8_shell_resolution (mom login : List Char) (attr : Option (List (List Char))) :
    set_shell mom login attr = set_shell_amended mom login attr := by
  cases attr with
  | none => rfl
  | some entries =>
    simp only [set_shell, set_shell_amended]
    rw [set_shell_scan_eq]

/-- The epilogue stores exactly the string it is handed. -/
theorem set_str_post_at_str (attr : StrAttr) (s : Option (List Char)) :
    (set_str_post attr s).2.at_str = s := by
  unfold set_str_post
  split <;> rfl

/-- Single-character `DECR` removes every occurrence: the right-to-left
scan over positions `n - 1` down to `0` deletes each character equal to `c`
among the first `n`, leaving the rest of the string untouched. -/
theorem decr_scan_singleton (c : Char) :
    ∀ (n : Nat) (s : List Char),
      decr_scan [c] n s = (s.take n).filter (fun x => x ≠ c) ++ s.drop n := by
  intro n
  induction n with
  | zero => intro s; simp [decr_scan]
  | succ n ih =>
    intro s
    cases hd : s.drop n with
    | nil =>
      have hlen : s.length ≤ n := by
        have h := congrArg List.length hd
        simp only [List.length_drop, List.length_nil] at h
        omega
      have hcond : ¬((s.drop n).take (List.length [c]) = [c]) := by
        rw [hd]
        simp
      simp only [decr_scan]
      rw [if_neg hcond, ih s]
      rw [List.take_of_length_le hlen,
        List.take_of_length_le (le_trans hlen (Nat.le_succ n)), hd,
        List.drop_eq_nil_of_le (le_trans hlen (Nat.le_succ n))]
    | cons x t =>
      have hlen : n < s.length := by
        by_contra hle
        push_neg at hle
        rw [List.drop_eq_nil_of_le hle] at hd
        exact List.noConfusion hd
      have htake1 : (s.drop n).take 1 = [x] := by rw [hd]; rfl
      have htakesucc : s.take (n + 1) = s.take n ++ [x] := by
        rw [List.take_add, htake1]
      have hdropsucc : s.drop (n + 1) = t := by
        rw [← List.drop_drop, hd]
        rfl
      have hltake : (s.take n).length = n := List.length_take_of_le (le_of_lt hlen)
      simp only [decr_scan]
      by_cases hx : x = c
      · have hcond : (s.drop n).take (List.length [c]) = [c] := by
          rw [hd, ← hx]
          rfl
        rw [if_pos hcond, ih]
        rw [List.take_left' hltake, List.drop_left' hltake]
        rw [htakesucc, hx]
        simp [List.filter_append]
      · have hcond : ¬((s.drop n).take (List.length [c]) = [c]) := by
          rw [hd]
          simp only [List.length_cons, List.length_nil, Nat.zero_add, List.take_cons,
            List.take_nil]
          intro hh
          exact hx (by simpa using hh)
        rw [if_neg hcond, ih]
        rw [htakesucc, hdropsucc, hd]
        simp [List.filter_append, hx]

/-- C3 counterexample: the claim says `DECR` removes only the first
occurrence of B found by the right-to-left scan and no other; but on
A = `"aa"`, B = `"a"` the code's scan (which has no break after a match)
removes BOTH occurrences, leaving the empty string and an unset cell,
while the claim's single-removal reading predicts `"a"`. -/
theorem C3_counterexample :
    (set_str ⟨some ['a', 'a'], 11⟩ ['a'] batch_op.DECR).2.at_str = some [] ∧
    decr_claim_remove ['a', 'a'] ['a'] = ['a'] := by
  decide

/-- C3 (amended): `DECR` removes EVERY match of B encountered by the
right-to-left scan from the position where a suffix of B's length would
begin, each position tested against the already-shifted string — not only
the first match; in particular `set_str("hello world", "world", DECR)`
yields `"hello "`, `set_str("aXaXa", "aXa", DECR)` yields `"aX"`, a
single-character B is removed at every occurrence, and whenever the
resulting string is empty the cell is marked unset (the set flag cleared)
rather than modified. -/
theorem C3_decr_removes_scan_matches :
    (set_str ⟨some "hello world".toList, 11⟩ "world".toList batch_op.DECR).2
      = ⟨some "hello ".toList, 11⟩ ∧
    (set_str ⟨some "aXaXa".toList, 11⟩ "aXa".toList batch_op.DECR).2
      = ⟨some "aX".toList, 11⟩ ∧
    (∀ (a : List Char) (c : Char) (f : Nat),
      (set_str ⟨some a, f⟩ [c] batch_op.DECR).2.at_str
        = some (a.filter (fun x => x ≠ c))) ∧
    (∀ (a b : List Char) (f : Nat),
      (set_str ⟨some a, f⟩ b batch_op.DECR).2.at_str = some [] →
      (set_str ⟨some a, f⟩ b batch_op.DECR).2.at_flags = clearFlag f ATR_VFLAG_SET) := by
  have hrun : ∀ (a b : List Char) (f : Nat),
      set_str ⟨some a, f⟩ b batch_op.DECR
        = set_str_post ⟨some a, f⟩ (set_str_decr (some a) b) := by
    intro a b f
    rfl
  refine ⟨by decide, by decide, ?_, ?_⟩
  · intro a c f
    rw [hrun, set_str_post_at_str]
    cases a with
    | nil => simp [set_str_decr]
    | cons y ys =>
      have hle : List.length [c] ≤ (y :: ys).length := by simp
      simp only [set_str_decr]
      rw [if_neg (by simp), if_pos hle]
      have hn : (y :: ys).length - List.length [c] + 1 = (y :: ys).length := by
        simp
      rw [hn, decr_scan_singleton, List.take_length, List.drop_length, List.append_nil]
  · intro a b f h
    rw [hrun] at h ⊢
    rw [set_str_post_at_str] at h
    rw [h]
    simp [set_str_post, clearFlag]

/-- Witness for C3 (amended) at A = `"aa"`, B = `"a"`: every occurrence of
`'a'` is removed and the emptied cell has its set flag cleared. -/
theorem C3_witness :
    (set_str ⟨some ['a', 'a'], 11⟩ ['a'] batch_op.DECR).2.at_str
      = some (['a', 'a'].filter (fun x => x ≠ 'a')) ∧
    (set_str ⟨some ['a', 'a'], 11⟩ ['a'] batch_op.DECR).2.at_flags
      = clearFlag 11 ATR_VFLAG_SET :=
  ⟨C3_decr_removes_scan_matches.2.2.1 ['a', 'a'] 'a' 11,
   C3_decr_removes_scan_matches.2.2.2 ['a', 'a'] ['a'] 11 (by decide)⟩

/-- A fold of conditional duplications adds one reference and one duplicate
per triggering element and sends no reply. -/
theorem foldl_dup_count {α : Type} (p : α → Bool) (l : List α) (s : ReqState) :
    l.foldl (fun st x => if p x then dup_br_for_subjob st else st) s
      = { s with rq_refct := s.rq_refct + (l.filter p).length,
                 dups := s.dups + (l.filter p).length } := by
  induction l generalizing s with
  | nil => simp
  | cons x xs ih =>
    by_cases hp : p x = true
    · rw [List.foldl_cons, if_pos hp, ih]
      simp only [dup_br_for_subjob, List.filter_cons, hp, if_true, List.length_cons,
        ReqState.mk.injEq]
      refine ⟨by omega, by trivial, by omega⟩
    · rw [List.foldl_cons, if_neg hp, ih]
      simp [List.filter_cons, hp]

/-- The range-shape loop body equals a conditional duplication on
`rangeTriggers`. -/
theorem rangeStep_eq (tbl : List SubJobTrk) :
    (fun (st : ReqState) (idx : Option Nat) =>
      match idx with
      | none => st
      | some k =>
        match tbl[k]? with
        | none => st
        | some sj =>
          if sj.trk_state = JOB_STATE_LTR_RUNNING ∧ sj.trk_has_psubjob then dup_br_for_subjob st
          else st)
    = fun st idx => if rangeTriggers tbl idx then dup_br_for_subjob st else st := by
  funext st idx
  cases idx with
  | none => simp [rangeTriggers]
  | some k =>
    cases h : tbl[k]? with
    | none => simp [rangeTriggers, h]
    | some sj => simp [rangeTriggers, h]

/-- Freeing `j ≤ n` of `n` pending duplicates decrements the reference
count `j` times and sends the aggregate reply exactly on the decrement that
reaches zero. -/
theorem freeChildren_eq :
    ∀ (j n r d : Nat), j ≤ n → 0 < n →
      freeChildren j ⟨n, r, d⟩ = ⟨n - j, r + (if n - j = 0 then 1 else 0), d⟩ := by
  intro j
  induction j with
  | zero =>
    intro n r d hj hn
    have hne : ¬(n = 0) := by omega
    simp [freeChildren, hne]
  | succ j ih =>
    intro n r d hj hn
    have hpos : 0 < n := hn
    simp only [freeChildren, free_br_child, refct_dec_reply, hpos, if_pos]
    by_cases h1 : n - 1 = 0
    · have hn1 : n = 1 := by omega
      have hj0 : j = 0 := by omega
      subst hn1
      subst hj0
      simp [freeChildren]
    · have h0 : 0 < n - 1 := by omega
      have hj' : j ≤ n - 1 := by omega
      rw [if_neg h1, Nat.add_zero, ih (n - 1) r d hj' h0]
      have e1 : n - 1 - j = n - (j + 1) := by omega
      rw [e1]

/-- The whole-array fan-out from a fresh parent state: `n` duplicates and
`n` held references remain, and the aggregate reply has been sent already
exactly when no duplicate was triggered. -/
theorem signalArrayFanout_state (tbl : List SubJobTrk) (suspend resume : Bool) :
    signalArrayFanout tbl suspend resume ⟨0, 0, 0⟩
      = ⟨(tbl.filter (triggersDup suspend resume)).length,
         if (tbl.filter (triggersDup suspend resume)).length = 0 then 1 else 0,
         (tbl.filter (triggersDup suspend resume)).length⟩ := by
  simp only [signalArrayFanout]
  rw [foldl_dup_count]
  simp only [refct_dec_reply, ReqState.mk.injEq]
  refine ⟨by omega, ?_, by omega⟩
  have e : (0 : Nat) + 1 + (tbl.filter (triggersDup suspend resume)).length - 1
      = (tbl.filter (triggersDup suspend resume)).length := by omega
  rw [e]
  simp

/-- The subjob-range fan-out from a fresh parent state, likewise. -/
theorem signalRangeFanout_state (tbl : List SubJobTrk) (offsets : List (Option Nat)) :
    signalRangeFanout tbl offsets ⟨0, 0, 0⟩
      = ⟨(offsets.filter (rangeTriggers tbl)).length,
         if (offsets.filter (rangeTriggers tbl)).length = 0 then 1 else 0,
         (offsets.filter (rangeTriggers tbl)).length⟩ := by
  simp only [signalRangeFanout]
  rw [rangeStep_eq, foldl_dup_count]
  simp only [refct_dec_reply, ReqState.mk.injEq]
  refine ⟨by omega, ?_, by omega⟩
  have e : (0 : Nat) + 1 + (offsets.filter (rangeTriggers tbl)).length - 1
      = (offsets.filter (rangeTriggers tbl)).length := by omega
  rw [e]
  simp

/-- C1: for both fan-out shapes of an array Signal-Job request (whole array
and subjob range), starting from a fresh parent request: the number of
fan-out duplicates (each relayed to its subjob's execution host through the
common per-job routine) equals the number of triggering subjobs `n`; the
parent holds `n` references when the fan-out returns; and after any `j ≤ n`
of the duplicates have completed and been freed, in any order, exactly one
aggregate reply has been sent when `j = n` and none before — in particular
the single decrement after the loop replies immediately when `n = 0`. -/
theorem C1_fanout_aggregate_reply (tbl : List SubJobTrk) (suspend resume : Bool)
    (offsets : List (Option Nat)) (j k : Nat)
    (hj : j ≤ (tbl.filter (triggersDup suspend resume)).length)
    (hk : k ≤ (offsets.filter (rangeTriggers tbl)).length) :
    ((signalArrayFanout tbl suspend resume ⟨0, 0, 0⟩).dups
        = (tbl.filter (triggersDup suspend resume)).length ∧
      (signalArrayFanout tbl suspend resume ⟨0, 0, 0⟩).rq_refct
        = (tbl.filter (triggersDup suspend resume)).length ∧
      (freeChildren j (signalArrayFanout tbl suspend resume ⟨0, 0, 0⟩)).repliesSent
        = (if j = (tbl.filter (triggersDup suspend resume)).length then 1 else 0) ∧
      (freeChildren j (signalArrayFanout tbl suspend resume ⟨0, 0, 0⟩)).rq_refct
        = (tbl.filter (triggersDup suspend resume)).length - j) ∧
    ((signalRangeFanout tbl offsets ⟨0, 0, 0⟩).dups
        = (offsets.filter (rangeTriggers tbl)).length ∧
      (signalRangeFanout tbl offsets ⟨0, 0, 0⟩).rq_refct
        = (offsets.filter (rangeTriggers tbl)).length ∧
      (freeChildren k (signalRangeFanout tbl offsets ⟨0, 0, 0⟩)).repliesSent
        = (if k = (offsets.filter (rangeTriggers tbl)).length then 1 else 0) ∧
      (freeChildren k (signalRangeFanout tbl offsets ⟨0, 0, 0⟩)).rq_refct
        = (offsets.filter (rangeTriggers tbl)).length - k) := by
  have main : ∀ (n j : Nat), j ≤ n →
      (freeChildren j ⟨n, if n = 0 then 1 else 0, n⟩).repliesSent
          = (if j = n then 1 else 0) ∧
      (freeChildren j ⟨n, if n = 0 then 1 else 0, n⟩).rq_refct = n - j := by
    intro n j hjn
    by_cases hn : n = 0
    · subst hn
      have hj0 : j = 0 := Nat.le_zero.mp hjn
      subst hj0
      simp [freeChildren]
    · have hpos : 0 < n := Nat.pos_of_ne_zero hn
      rw [if_neg hn, freeChildren_eq j n 0 n hjn hpos]
      constructor
      · simp only [Nat.zero_add]
        by_cases hje : j = n
        · subst hje
          simp
        · have : ¬(n - j = 0) := by omega
          simp [hje, this]
      · rfl
  rw [signalArrayFanout_state, signalRangeFanout_state]
  exact ⟨⟨rfl, rfl, (main _ j hj).1, (main _ j hj).2⟩,
         ⟨rfl, rfl, (main _ k hk).1, (main _ k hk).2⟩⟩

/-- Witness for C1: a two-subjob array (both running, neither suspended)
under a plain signal fans out two duplicates and replies exactly when the
second one is freed; the range shape with one resolvable running offset
replies when that one duplicate is freed. -/
theorem C1_witness :
    ((signalArrayFanout [⟨'R', true, 0⟩, ⟨'R', true, 0⟩] false false ⟨0, 0, 0⟩).dups
        = ([⟨'R', true, 0⟩, ⟨'R', true, 0⟩].filter (triggersDup false false)).length ∧
      (signalArrayFanout [⟨'R', true, 0⟩, ⟨'R', true, 0⟩] false false ⟨0, 0, 0⟩).rq_refct
        = ([⟨'R', true, 0⟩, ⟨'R', true, 0⟩].filter (triggersDup false false)).length ∧
      (freeChildren 2 (signalArrayFanout [⟨'R', true, 0⟩, ⟨'R', true, 0⟩] false false
          ⟨0, 0, 0⟩)).repliesSent
        = (if 2 = ([⟨'R', true, 0⟩, ⟨'R', true, 0⟩].filter (triggersDup false false)).length
           then 1 else 0) ∧
      (freeChildren 2 (signalArrayFanout [⟨'R', true, 0⟩, ⟨'R', true, 0⟩] false false
          ⟨0, 0, 0⟩)).rq_refct
        = ([⟨'R', true, 0⟩, ⟨'R', true, 0⟩].filter (triggersDup false false)).length - 2) ∧
    ((signalRangeFanout [⟨'R', true, 0⟩, ⟨'R', true, 0⟩] [some 0] ⟨0, 0, 0⟩).dups
        = ([some 0].filter (rangeTriggers [⟨'R', true, 0⟩, ⟨'R', true, 0⟩])).length ∧
      (signalRangeFanout [⟨'R', true, 0⟩, ⟨'R', true, 0⟩] [some 0] ⟨0, 0, 0⟩).rq_refct
        = ([some 0].filter (rangeTriggers [⟨'R', true, 0⟩, ⟨'R', true, 0⟩])).length ∧
      (freeChildren 1 (signalRangeFanout [⟨'R', true, 0⟩, ⟨'R', true, 0⟩] [some 0]
          ⟨0, 0, 0⟩)).repliesSent
        = (if 1 = ([some 0].filter (rangeTriggers [⟨'R', true, 0⟩, ⟨'R', true, 0⟩])).length
           then 1 else 0) ∧
      (freeChildren 1 (signalRangeFanout [⟨'R', true, 0⟩, ⟨'R', true, 0⟩] [some 0]
          ⟨0, 0, 0⟩)).rq_refct
        = ([some 0].filter (rangeTriggers [⟨'R', true, 0⟩, ⟨'R', true, 0⟩])).length - 1) :=
  C1_fanout_aggregate_reply [⟨'R', true, 0⟩, ⟨'R', true, 0⟩] false false [some 0] 2 1
    (by decide) (by decide)

/-- C2: for a resume pseudo-signal against a running, non-provisioning job
whose suspended flag is set (and which passes the wrong-resume-type guard):
a plain resume from a normal client moves the job to the
scheduler-suspended substate, flags the job's scheduler to re-schedule, and
acknowledges at once with no relay, no rejection, no node reassignment and
no accounting change; a resume flagged from-server (or carrying the
admin-resume signal, on an admin-suspended job) instead reassigns the
recorded execution nodes — rejecting the request without relaying when
reassignment fails — re-increments the resource-assignment accounting, and
relays the signal to the execution host. -/
theorem C2_resume_authority_split (pjob : SigJob) (env : SigEnv)
    (hrun : pjob.running = true) (hprov : pjob.substate_provision = false)
    (hsusp : pjob.svrflags &&& JOB_SVFLG_Suspend ≠ 0)
    (hadm : pjob.svrflags &&& JOB_SVFLG_AdmSuspd = 0)
    (hsched : env.sched_found = true) :
    req_signaljob2 pjob ⟨SIG_RESUME, false⟩ env
      = ⟨[], false, true, some JOB_SUBSTATE_SCHSUSP, true, false, false, false⟩ ∧
    (pjob.has_exec_vnode = true → pjob.has_deallocated = false →
      ((env.assign_rc = 0 → env.relay_rc = 0 →
        req_signaljob2 pjob ⟨SIG_RESUME, true⟩ env
          = ⟨[], true, false, none, false, true, true, false⟩) ∧
       (env.assign_rc ≠ 0 →
        req_signaljob2 pjob ⟨SIG_RESUME, true⟩ env
          = ⟨[env.assign_rc], false, false, none, false, true, false, false⟩))) ∧
    (∀ pj2 : SigJob, pj2.running = true → pj2.substate_provision = false →
      pj2.svrflags &&& JOB_SVFLG_Suspend ≠ 0 → pj2.svrflags &&& JOB_SVFLG_AdmSuspd ≠ 0 →
      pj2.has_exec_vnode = true → pj2.has_deallocated = false →
      env.assign_rc = 0 → env.relay_rc = 0 →
      req_signaljob2 pj2 ⟨SIG_ADMIN_RESUME, false⟩ env
        = ⟨[], true, false, none, false, true, true, false⟩) := by
  have hne : SIG_RESUME ≠ SIG_ADMIN_RESUME := by decide
  have hne2 : SIG_ADMIN_RESUME ≠ SIG_RESUME := by decide
  refine ⟨?_, ?_, ?_⟩
  · simp [req_signaljob2, hrun, hprov, hsusp, hadm, hsched, hne]
  · intro hvn hdeal
    constructor
    · intro ha hr
      simp [req_signaljob2, signal_relay, hrun, hprov, hsusp, hadm, hvn, hdeal, ha, hr, hne]
    · intro ha
      simp [req_signaljob2, signal_relay, hrun, hprov, hsusp, hadm, hvn, hdeal, ha, hne]
  · intro pj2 h1 h2 h3 h4 h5 h6 ha hr
    simp [req_signaljob2, signal_relay, h1, h2, h3, h4, h5, h6, ha, hr, hne2]

/-- Witness for C2 at a concrete suspended running job and environment. -/
theorem C2_witness :
    req_signaljob2 ⟨true, false, JOB_SVFLG_Suspend, true, false⟩ ⟨SIG_RESUME, false⟩
        ⟨0, 0, true, 0⟩
      = ⟨[], false, true, some JOB_SUBSTATE_SCHSUSP, true, false, false, false⟩ :=
  (C2_resume_authority_split ⟨true, false, JOB_SVFLG_Suspend, true, false⟩ ⟨0, 0, true, 0⟩
    rfl rfl (by decide) (by decide) rfl).1

end PBS
